import Mathlib

/-!
The kubectl commands hello-world and hello-kubernetes.

A shallow embedding of the two command handlers

* `staging/src/k8s.io/kubectl/pkg/cmd/helloworld/helloworld.go`
* `staging/src/k8s.io/kubectl/pkg/cmd/hellokubernetes/hellokubernetes.go`

Go closures become functions on an explicit frame of the variables they
capture; `(value, error)` returns become pairs or `Except`; the stream a
`cobra.Command` prints to is the list of the strings written to it, oldest
first.
-/

/-- A Go `error` value, identified by its message. -/
structure Error where
  msg : String
deriving DecidableEq, Repr

/-- The part of `cobra.Command` the handlers use: the stream `Print`,
`Println` and `Printf` write to, as the list of writes in order. -/
structure Command where
  out : List String
deriving DecidableEq, Repr

/-- One write of an already formatted string (`cmd.Printf` after formatting). -/
def Command.Print (c : Command) (s : String) : Command :=
  { out := c.out ++ [s] }

/-- The `cmd.Println(s)` call for one string operand: the operand and a newline. -/
def Command.Println (c : Command) (s : String) : Command :=
  c.Print (s ++ "\n")

namespace helloworld

/-- helloworld.go, lines 28-30: `cmd.Println("Hello World")`; no result. -/
def RunHelloWorld (cmd : Command) (_args : List String) : Command :=
  cmd.Println "Hello World"

end helloworld

namespace hellokubernetes

/-- The `resource.Info` handed to a visitor function; only `Object` is read. -/
structure Info (Obj : Type) where
  Object : Obj

/-- The `resource.Result` returned by `Do()`: the construction error reported
by `r.Err()` and the resolved sequence, each item tagged with its error. -/
structure Result (Obj : Type) where
  err : Option Error
  items : List (Info Obj × Option Error)

/-- The `resource.FilenameOptions` value passed to `FilenameParam`. -/
structure FilenameOptions where
  Filenames : List String
  Kustomize : String
  Recursive : Bool
deriving DecidableEq, Repr

/-- The builder call chain of lines 125-133, as the record of its arguments. -/
structure Query where
  unstructured : Bool
  continueOnError : Bool
  namespaceParam : String
  defaultNamespace : Bool
  enforceNamespace : Bool
  filenameOptions : FilenameOptions
  all : Bool
  args : List String
  flatten : Bool
  labelSelector : String
deriving DecidableEq, Repr

/-- The `printers.ResourcePrinterFunc` type: an object and a writer (its list
of writes) to the writer afterwards and an error. -/
abbrev ResourcePrinterFunc (Obj : Type) : Type :=
  Obj → List String → List String × Option Error

/-- The `HelloKubernetesOptions` struct (lines 34-50). `builder` is the
resolver: what `Do()` returns for a call chain. -/
structure HelloKubernetesOptions (Obj Rec : Type) where
  FilenameOptions : FilenameOptions
  PrintObj : Option (ResourcePrinterFunc Obj)
  Selector : String
  All : Bool
  Recorder : Rec
  builder : Query → Result Obj
  namespace_ : String
  enforceNamespace : Bool
  args : List String

/-- The collaborators `Complete` calls: `o.RecordFlags.ToRecorder()`,
`o.PrintFlags.ToPrinter()` (its `PrintObj`), `f.ToRawKubeConfigLoader().Namespace()`
and `f.NewBuilder()`, each as the values it returns. -/
structure Factory (Obj Rec : Type) where
  ToRecorder : Rec × Option Error
  ToPrinter : Except Error (ResourcePrinterFunc Obj)
  Namespace : String × Bool × Option Error
  NewBuilder : Query → Result Obj

/-- The collaborator calls of `Complete`, for the log of calls made. -/
inductive Call where
  | RecordFlagsComplete
  | ToRecorder
  | ToPrinter
  | Namespace
  | NewBuilder
deriving DecidableEq, Repr

/-- `Complete` (lines 91-116): the options afterwards, the collaborator calls
made in order, and the error returned. -/
def Complete {Obj Rec : Type} (f : Factory Obj Rec) (o : HelloKubernetesOptions Obj Rec)
    (args : List String) : HelloKubernetesOptions Obj Rec × List Call × Option Error :=
  let log := [Call.RecordFlagsComplete, Call.ToRecorder]
  let o := { o with Recorder := f.ToRecorder.1 }
  match f.ToRecorder.2 with
  | some err => (o, log, some err)
  | none =>
    let log := log ++ [Call.ToPrinter]
    match f.ToPrinter with
    | .error err => (o, log, some err)
    | .ok printer =>
      let o := { o with PrintObj := some printer }
      let log := log ++ [Call.Namespace]
      let o := { o with namespace_ := f.Namespace.1, enforceNamespace := f.Namespace.2.1 }
      match f.Namespace.2.2 with
      | some err => (o, log, some err)
      | none =>
        let log := log ++ [Call.NewBuilder]
        let o := { o with builder := f.NewBuilder }
        let o := { o with args := args }
        (o, log, none)

/-- `Validate` (lines 119-121). -/
def Validate {Obj Rec : Type} (_o : HelloKubernetesOptions Obj Rec) : Option Error :=
  none

/-- The capabilities of `k8s.io/apimachinery` a run relies on. The accessor
capability of `pkg/api/meta` and the `metav1.Time` operations the handler
uses: `meta.NewAccessor().Kind`, `.Name`, `meta.Accessor`,
`GetCreationTimestamp`, the zero value of `metav1.Time`, and the text `%v`
gives for a `metav1.Time`. And `NewAggregate`: the one error a walk returns
for two or more collected errors. -/
structure MetaAPI (Obj MetaObj Time : Type) where
  Kind : Obj → Except Error String
  Name : Obj → Except Error String
  Accessor : Obj → Except Error MetaObj
  GetCreationTimestamp : MetaObj → Time
  zeroTime : Time
  formatV : Time → String
  NewAggregate : List Error → Error

/-- The variables of `RunHelloKubernetes` that its two visitor closures
capture and update (`cmd`, `infos`, `counter`), and `visits`, the number of
`r.Visit` calls started so far. `counter` is a Go `int`; a run does not
reach 2^63 items, so it is a natural number here. -/
structure Frame (Obj : Type) where
  cmd : Command
  infos : List (Info Obj)
  counter : Nat
  visits : Nat

/-- Modelled from the spec: the walk that `resource.Result.Visit` performs
lives in `k8s.io/cli-runtime/pkg/resource`, outside the two handler files
embedded here. The spec has the query built with "continue-on-error
semantics" and its execution yield "an error-tolerant sequence of resource
results", "a visitable result sequence tolerant of per-item errors": the
walk does not stop at an error. An item that carries an error is not handed
to the visitor function and its error is collected; an error-free item is
handed to the visitor function and the error that returns, if any, is
collected; in both cases the walk goes on with the next item. `errs` is the
list of errors collected so far. -/
def visitItems {Obj : Type}
    (fn : Info Obj → Option Error → Frame Obj → Frame Obj × Option Error) :
    List (Info Obj × Option Error) → Frame Obj → List Error → Frame Obj × List Error
  | [], fr, errs => (fr, errs)
  | (_, some e) :: rest, fr, errs => visitItems fn rest fr (errs ++ [e])
  | (info, none) :: rest, fr, errs =>
    match fn info none fr with
    | (fr1, some err) => visitItems fn rest fr1 (errs ++ [err])
    | (fr1, none) => visitItems fn rest fr1 errs

/-- Modelled from the spec: the error a walk returns for the errors it
collected: nil for none, the error itself for one, the aggregate of all of
them for more. -/
def collectedError (aggregate : List Error → Error) : List Error → Option Error
  | [] => none
  | [e] => some e
  | e :: e1 :: es => some (aggregate (e :: e1 :: es))

/-- Modelled from the spec: `r.Visit(fn)` of `resource.Result`, one walk over
the resolved sequence (see `visitItems`), counted in `visits`. -/
def Result.Visit {Obj : Type} (r : Result Obj) (aggregate : List Error → Error)
    (fn : Info Obj → Option Error → Frame Obj → Frame Obj × Option Error)
    (fr : Frame Obj) : Frame Obj × Option Error :=
  let p := visitItems fn r.items { fr with visits := fr.visits + 1 } []
  (p.1, collectedError aggregate p.2)

/-- The call chain of lines 125-133 for the options `o`. -/
def buildQuery {Obj Rec : Type} (o : HelloKubernetesOptions Obj Rec) : Query :=
  { unstructured := true
    continueOnError := true
    namespaceParam := o.namespace_
    defaultNamespace := true
    enforceNamespace := o.enforceNamespace
    filenameOptions := o.FilenameOptions
    all := o.All
    args := o.args
    flatten := true
    labelSelector := o.Selector }

/-- The first visitor function (lines 140-145): appends the item to `infos`
when it carries no error; always returns nil. -/
def collectInfo {Obj : Type} (info : Info Obj) (err : Option Error) (fr : Frame Obj) :
    Frame Obj × Option Error :=
  match err with
  | none => ({ fr with infos := fr.infos ++ [info] }, none)
  | some _ => (fr, none)

/-- The second visitor function (lines 148-182). -/
def greet {Obj MetaObj Time : Type} [DecidableEq Time] (api : MetaAPI Obj MetaObj Time)
    (info : Info Obj) (err : Option Error) (fr : Frame Obj) : Frame Obj × Option Error :=
  match err with
  | some e => (fr, some e)
  | none =>
    match api.Kind info.Object with
    | .error e => (fr, some e)
    | .ok kind =>
      match api.Name info.Object with
      | .error e => (fr, some e)
      | .ok name =>
        match api.Accessor info.Object with
        | .error e => (fr, some e)
        | .ok obj =>
          let creationTimestamp := api.GetCreationTimestamp obj
          let cmd :=
            if creationTimestamp = api.zeroTime then
              fr.cmd.Print ("Hello " ++ kind ++ " " ++ name ++ "\n")
            else
              fr.cmd.Print ("Hello " ++ kind ++ " " ++ name ++ " "
                ++ api.formatV creationTimestamp ++ "\n")
          ({ fr with cmd := cmd, counter := fr.counter + 1 }, none)

/-- The error of line 187. -/
def noObjects : Error :=
  ⟨"no objects passed to kubernetes-hello"⟩

/-- The first `r.Visit` (lines 139-145), from the frame at entry. -/
def firstPass {Obj : Type} (aggregate : List Error → Error) (r : Result Obj) (cmd : Command) :
    Frame Obj × Option Error :=
  r.Visit aggregate collectInfo { cmd := cmd, infos := [], counter := 0, visits := 0 }

/-- The second `r.Visit` (lines 147-182), from the frame the first one left. -/
def secondPass {Obj MetaObj Time : Type} [DecidableEq Time] (api : MetaAPI Obj MetaObj Time)
    (r : Result Obj) (cmd : Command) : Frame Obj × Option Error :=
  r.Visit api.NewAggregate (greet api) (firstPass api.NewAggregate r cmd).1

/-- `RunHelloKubernetes` (lines 124-191): the frame at return and the error
returned. -/
def RunHelloKubernetes {Obj MetaObj Time Rec : Type} [DecidableEq Time]
    (api : MetaAPI Obj MetaObj Time) (o : HelloKubernetesOptions Obj Rec) (cmd : Command) :
    Frame Obj × Option Error :=
  let r := o.builder (buildQuery o)
  match r.err with
  | some err => ({ cmd := cmd, infos := [], counter := 0, visits := 0 }, some err)
  | none =>
    let p := secondPass api r cmd
    match p.2 with
    | some err => (p.1, some err)
    | none =>
      if p.1.counter = 0 then (p.1, some noObjects)
      else (p.1, none)

/-- The single-pass variant the design notes ask for: `RunHelloKubernetes`
with the first, collect-and-discard `r.Visit` removed. -/
def RunHelloKubernetesSinglePass {Obj MetaObj Time Rec : Type} [DecidableEq Time]
    (api : MetaAPI Obj MetaObj Time) (o : HelloKubernetesOptions Obj Rec) (cmd : Command) :
    Frame Obj × Option Error :=
  let r := o.builder (buildQuery o)
  match r.err with
  | some err => ({ cmd := cmd, infos := [], counter := 0, visits := 0 }, some err)
  | none =>
    let p := r.Visit api.NewAggregate (greet api)
      { cmd := cmd, infos := [], counter := 0, visits := 0 }
    match p.2 with
    | some err => (p.1, some err)
    | none =>
      if p.1.counter = 0 then (p.1, some noObjects)
      else (p.1, none)

/-! ### Functional description of the output pass -/

/-- The line lines 173-177 format for a kind, a name and a creation timestamp. -/
def helloLine {Obj MetaObj Time : Type} [DecidableEq Time] (api : MetaAPI Obj MetaObj Time)
    (kind name : String) (creationTimestamp : Time) : String :=
  if creationTimestamp = api.zeroTime then
    "Hello " ++ kind ++ " " ++ name ++ "\n"
  else
    "Hello " ++ kind ++ " " ++ name ++ " " ++ api.formatV creationTimestamp ++ "\n"

/-- The greeting of an error-free item: the line of lines 155-177, or the
error of the first accessor that fails. -/
def greetingLine {Obj MetaObj Time : Type} [DecidableEq Time] (api : MetaAPI Obj MetaObj Time)
    (info : Info Obj) : Except Error String :=
  match api.Kind info.Object with
  | .error e => .error e
  | .ok kind =>
    match api.Name info.Object with
    | .error e => .error e
    | .ok name =>
      match api.Accessor info.Object with
      | .error e => .error e
      | .ok obj => .ok (helloLine api kind name (api.GetCreationTimestamp obj))

/-- The lines an output pass over a sequence writes, and the errors it
collects, both in resolution order. -/
def greetItems {Obj MetaObj Time : Type} [DecidableEq Time] (api : MetaAPI Obj MetaObj Time) :
    List (Info Obj × Option Error) → List String × List Error
  | [] => ([], [])
  | (_, some e) :: rest => ((greetItems api rest).1, e :: (greetItems api rest).2)
  | (info, none) :: rest =>
    match greetingLine api info with
    | .error e => ((greetItems api rest).1, e :: (greetItems api rest).2)
    | .ok l => (l :: (greetItems api rest).1, (greetItems api rest).2)

/-- The line an output pass writes for one item of the sequence, if any: the
greeting of an error-free item whose accessors succeed. -/
def lineOf {Obj MetaObj Time : Type} [DecidableEq Time] (api : MetaAPI Obj MetaObj Time)
    (p : Info Obj × Option Error) : Option String :=
  match p.2 with
  | some _ => none
  | none =>
    match greetingLine api p.1 with
    | .ok l => some l
    | .error _ => none

/-- The error an output pass collects for one item of the sequence, if any:
the error the item carries, or the error of the accessor that fails on it. -/
def errorOf {Obj MetaObj Time : Type} [DecidableEq Time] (api : MetaAPI Obj MetaObj Time)
    (p : Info Obj × Option Error) : Option Error :=
  match p.2 with
  | some e => some e
  | none =>
    match greetingLine api p.1 with
    | .ok _ => none
    | .error e => some e

/-! ### Sample data -/

/-- A sample object: its kind, its name, its creation time (0: not created)
and whether the kind accessor fails on it. -/
structure SampleObj where
  kind : String
  name : String
  created : Nat
  kindFails : Bool
deriving DecidableEq, Repr

/-- A sample accessor capability over `SampleObj`, with timestamps as numbers. -/
def sampleAPI : MetaAPI SampleObj SampleObj Nat where
  Kind o := if o.kindFails then .error ⟨"object does not implement the Object interfaces"⟩
    else .ok o.kind
  Name o := .ok o.name
  Accessor o := .ok o
  GetCreationTimestamp o := o.created
  zeroTime := 0
  formatV t := if t = 0 then "0001-01-01 00:00:00 +0000 UTC" else "2019-06-01 12:00:00 +0000 UTC"
  NewAggregate es := ⟨"[" ++ ", ".intercalate (es.map Error.msg) ++ "]"⟩

/-- Sample options whose resolver returns the result `r` for every call chain. -/
def sampleOptions (r : Result SampleObj) : HelloKubernetesOptions SampleObj Unit where
  FilenameOptions := ⟨[], "", false⟩
  PrintObj := none
  Selector := ""
  All := false
  Recorder := ()
  builder _ := r
  namespace_ := "default"
  enforceNamespace := false
  args := []

/-- A created pod. -/
def podFoo : Info SampleObj := ⟨⟨"Pod", "foo", 1, false⟩⟩

/-- A service definition not yet created. -/
def svcBar : Info SampleObj := ⟨⟨"Service", "bar", 0, false⟩⟩

/-- A structured printer: writes a raw rendering of the object. -/
def rawPrinter : ResourcePrinterFunc SampleObj :=
  fun obj w => (w ++ ["kind: " ++ obj.kind ++ ", name: " ++ obj.name ++ "\n"], none)

/-- A sample factory whose three fallible steps return the given errors, whose
printer is `rawPrinter` and whose builder resolves every call chain to `r`. -/
def sampleFactory (r : Result SampleObj) (recErr printErr nsErr : Option Error) :
    Factory SampleObj Unit where
  ToRecorder := ((), recErr)
  ToPrinter := match printErr with
    | some e => .error e
    | none => .ok rawPrinter
  Namespace := ("prod", true, nsErr)
  NewBuilder _ := r

end hellokubernetes

/-! ## Lemmas on the two passes -/

namespace hellokubernetes

variable {Obj MetaObj Time Rec : Type} [DecidableEq Time]

/-- The second visitor function on an error-free item, through `greetingLine`. -/
theorem greet_none (api : MetaAPI Obj MetaObj Time) (info : Info Obj) (fr : Frame Obj) :
    greet api info none fr =
      match greetingLine api info with
      | .ok l => ({ fr with cmd := fr.cmd.Print l, counter := fr.counter + 1 }, none)
      | .error e => (fr, some e) := by
  unfold greet greetingLine helloLine
  cases api.Kind info.Object with
  | error e => rfl
  | ok kind =>
    cases api.Name info.Object with
    | error e => rfl
    | ok name =>
      cases api.Accessor info.Object with
      | error e => rfl
      | ok obj =>
        by_cases h : api.GetCreationTimestamp obj = api.zeroTime <;> simp [h]

/-- The output pass writes the lines of `greetItems`, counts them, touches
nothing else, and collects the errors of `greetItems`. -/
theorem visitItems_greet (api : MetaAPI Obj MetaObj Time)
    (items : List (Info Obj × Option Error)) (fr : Frame Obj) (errs : List Error) :
    visitItems (greet api) items fr errs =
      ({ fr with cmd := ⟨fr.cmd.out ++ (greetItems api items).1⟩,
                 counter := fr.counter + (greetItems api items).1.length },
       errs ++ (greetItems api items).2) := by
  induction items generalizing fr errs with
  | nil => simp [visitItems, greetItems]
  | cons p rest ih =>
    obtain ⟨info, e⟩ := p
    cases e with
    | some e => simp [visitItems, greetItems, ih]
    | none =>
      unfold visitItems
      rw [greet_none]
      cases hg : greetingLine api info with
      | error e => simp [greetItems, hg, ih]
      | ok l =>
        simp only [greetItems, hg]
        rw [ih]
        simp [Command.Print, Nat.add_comm, Nat.add_assoc]

/-- The collecting pass leaves `cmd`, `counter` and `visits` as they were. -/
theorem visitItems_collectInfo (items : List (Info Obj × Option Error)) (fr : Frame Obj)
    (errs : List Error) :
    (visitItems collectInfo items fr errs).1.cmd = fr.cmd ∧
    (visitItems collectInfo items fr errs).1.counter = fr.counter ∧
    (visitItems collectInfo items fr errs).1.visits = fr.visits := by
  induction items generalizing fr errs with
  | nil => simp [visitItems]
  | cons p rest ih =>
    obtain ⟨info, e⟩ := p
    cases e with
    | some e => simpa [visitItems] using ih fr (errs ++ [e])
    | none =>
      simpa [visitItems, collectInfo] using ih { fr with infos := fr.infos ++ [info] } errs

/-- The frame the first pass leaves. -/
theorem firstPass_spec (aggregate : List Error → Error) (r : Result Obj) (cmd : Command) :
    (firstPass aggregate r cmd).1.cmd = cmd ∧ (firstPass aggregate r cmd).1.counter = 0 := by
  have h := visitItems_collectInfo r.items
    { cmd := cmd, infos := [], counter := 0, visits := 0 + 1 } []
  exact ⟨h.1, h.2.1⟩

/-- The second pass in terms of `greetItems`. -/
theorem secondPass_spec (api : MetaAPI Obj MetaObj Time) (r : Result Obj) (cmd : Command) :
    (secondPass api r cmd).1.cmd.out = cmd.out ++ (greetItems api r.items).1 ∧
    (secondPass api r cmd).1.counter = (greetItems api r.items).1.length ∧
    (secondPass api r cmd).2 = collectedError api.NewAggregate (greetItems api r.items).2 := by
  obtain ⟨hc, hn⟩ := firstPass_spec api.NewAggregate r cmd
  unfold secondPass Result.Visit
  simp only [visitItems_greet]
  simp [hc, hn]

/-- With no construction error, `RunHelloKubernetes` in terms of `greetItems`. -/
theorem run_spec (api : MetaAPI Obj MetaObj Time) (o : HelloKubernetesOptions Obj Rec)
    (cmd : Command) (h0 : (o.builder (buildQuery o)).err = none) :
    (RunHelloKubernetes api o cmd).1.cmd.out
        = cmd.out ++ (greetItems api (o.builder (buildQuery o)).items).1 ∧
    (RunHelloKubernetes api o cmd).1.counter
        = (greetItems api (o.builder (buildQuery o)).items).1.length ∧
    (RunHelloKubernetes api o cmd).2 =
      match collectedError api.NewAggregate
        (greetItems api (o.builder (buildQuery o)).items).2 with
      | some e => some e
      | none =>
        if (greetItems api (o.builder (buildQuery o)).items).1.length = 0 then some noObjects
        else none := by
  obtain ⟨h1, h2, h3⟩ := secondPass_spec api (o.builder (buildQuery o)) cmd
  unfold RunHelloKubernetes
  simp only [h0]
  cases hg : collectedError api.NewAggregate
      (greetItems api (o.builder (buildQuery o)).items).2 with
  | some e =>
    rw [hg] at h3
    simp only [h3]
    exact ⟨h1, h2, trivial⟩
  | none =>
    rw [hg] at h3
    simp only [h3, h2]
    by_cases hz : (greetItems api (o.builder (buildQuery o)).items).1.length = 0
    · simp only [hz, if_true]
      exact ⟨h1, by rw [h2, hz], trivial⟩
    · simp only [hz, if_false]
      exact ⟨h1, h2, trivial⟩

/-- With no construction error, the single-pass variant in terms of `greetItems`. -/
theorem singlePass_spec (api : MetaAPI Obj MetaObj Time) (o : HelloKubernetesOptions Obj Rec)
    (cmd : Command) (h0 : (o.builder (buildQuery o)).err = none) :
    (RunHelloKubernetesSinglePass api o cmd).1.cmd.out
        = cmd.out ++ (greetItems api (o.builder (buildQuery o)).items).1 ∧
    (RunHelloKubernetesSinglePass api o cmd).1.counter
        = (greetItems api (o.builder (buildQuery o)).items).1.length ∧
    (RunHelloKubernetesSinglePass api o cmd).2 =
      match collectedError api.NewAggregate
        (greetItems api (o.builder (buildQuery o)).items).2 with
      | some e => some e
      | none =>
        if (greetItems api (o.builder (buildQuery o)).items).1.length = 0 then some noObjects
        else none := by
  unfold RunHelloKubernetesSinglePass Result.Visit
  simp only [h0, visitItems_greet]
  cases hg : collectedError api.NewAggregate
      (greetItems api (o.builder (buildQuery o)).items).2 with
  | some e => simp [hg]
  | none =>
    by_cases hz : (greetItems api (o.builder (buildQuery o)).items).1.length = 0
    · simp [hg, hz]
    · simp [hg, hz]

/-- The lines and the errors of an output pass, item by item. -/
theorem greetItems_eq (api : MetaAPI Obj MetaObj Time)
    (items : List (Info Obj × Option Error)) :
    greetItems api items = (items.filterMap (lineOf api), items.filterMap (errorOf api)) := by
  induction items with
  | nil => rfl
  | cons p rest ih =>
    obtain ⟨info, e⟩ := p
    cases e with
    | some e => simp [greetItems, ih, lineOf, errorOf, List.filterMap_cons]
    | none =>
      cases hg : greetingLine api info with
      | error e => simp [greetItems, ih, lineOf, errorOf, List.filterMap_cons, hg]
      | ok l => simp [greetItems, ih, lineOf, errorOf, List.filterMap_cons, hg]

/-- The output pass over a sequence that starts with items whose greetings
all succeed writes their lines and goes on with the rest. -/
theorem greetItems_append (api : MetaAPI Obj MetaObj Time)
    (pre rest : List (Info Obj × Option Error)) (ls : List String)
    (h : List.Forall₂ (fun p l => p.2 = none ∧ greetingLine api p.1 = .ok l) pre ls) :
    greetItems api (pre ++ rest)
      = (ls ++ (greetItems api rest).1, (greetItems api rest).2) := by
  induction pre generalizing ls with
  | nil =>
    cases h
    simp
  | cons p pre1 ih =>
    cases h with
    | cons hpl htl =>
      rename_i l ls1
      obtain ⟨info, e⟩ := p
      obtain ⟨he, hl⟩ := hpl
      replace he : e = none := he
      replace hl : greetingLine api info = .ok l := hl
      subst he
      have ih1 := ih ls1 htl
      simp only [List.cons_append, greetItems, hl]
      show (l :: (greetItems api (pre1 ++ rest)).1, (greetItems api (pre1 ++ rest)).2) = _
      rw [ih1]

/-- When every item is error-free and has a greeting, the output pass writes
one line per item, in order, and collects no error. -/
theorem greetItems_all_ok (api : MetaAPI Obj MetaObj Time)
    (items : List (Info Obj × Option Error))
    (h : ∀ p ∈ items, p.2 = none ∧ ∃ l, greetingLine api p.1 = .ok l) :
    (greetItems api items).2 = [] ∧
    List.Forall₂ (fun p l => p.2 = none ∧ greetingLine api p.1 = .ok l) items
      (greetItems api items).1 := by
  induction items with
  | nil => exact ⟨rfl, List.Forall₂.nil⟩
  | cons p rest ih =>
    obtain ⟨info, e⟩ := p
    obtain ⟨he, l, hl⟩ := h (info, e) (List.mem_cons_self _ _)
    simp only at he hl
    subst he
    obtain ⟨ih1, ih2⟩ := ih (fun q hq => h q (List.mem_cons_of_mem _ hq))
    simp only [greetItems, hl]
    exact ⟨ih1, List.Forall₂.cons ⟨rfl, hl⟩ ih2⟩

/-- The greeting of an object whose three accessors succeed. -/
theorem greetingLine_ok (api : MetaAPI Obj MetaObj Time) (info : Info Obj)
    (K N : String) (m : MetaObj) (hK : api.Kind info.Object = .ok K)
    (hN : api.Name info.Object = .ok N) (hA : api.Accessor info.Object = .ok m) :
    greetingLine api info = .ok (helloLine api K N (api.GetCreationTimestamp m)) := by
  simp [greetingLine, hK, hN, hA]

/-- An object whose three accessors succeed has a greeting. -/
theorem greetingLine_of_accessors (api : MetaAPI Obj MetaObj Time) (info : Info Obj)
    (hK : ∃ K, api.Kind info.Object = .ok K) (hN : ∃ N, api.Name info.Object = .ok N)
    (hA : ∃ m, api.Accessor info.Object = .ok m) :
    ∃ l, greetingLine api info = .ok l := by
  obtain ⟨K, hK⟩ := hK
  obtain ⟨N, hN⟩ := hN
  obtain ⟨m, hA⟩ := hA
  exact ⟨_, greetingLine_ok api info K N m hK hN hA⟩

end hellokubernetes

/-! ## The claims -/

namespace helloworld

/-- C8: for every command and every argument list, `RunHelloWorld` appends
exactly one write, the line "Hello World" with one newline, to the output and
nothing else; the outcome is the same for all argument lists, and the handler
has no error result (its type returns the command only). -/
theorem C8_hello_world (cmd : Command) (args : List String) :
    (RunHelloWorld cmd args).out = cmd.out ++ ["Hello World\n"] ∧
    ∀ args2 : List String, RunHelloWorld cmd args2 = RunHelloWorld cmd args := by
  refine ⟨?_, fun _ => rfl⟩
  simp only [RunHelloWorld, Command.Println, Command.Print]
  congr 1

end helloworld

namespace hellokubernetes

variable {Obj MetaObj Time Rec : Type} [DecidableEq Time]

/-- C1: when the query has no construction error and resolves to exactly one
error-free resource whose kind accessor gives K, name accessor gives N and
creation timestamp T is not the zero value, `RunHelloKubernetes` writes
exactly one line, "Hello K N T" with a newline (T as `%v` formats it), and
returns no error. -/
theorem C1_single_created_resource (api : MetaAPI Obj MetaObj Time)
    (o : HelloKubernetesOptions Obj Rec) (cmd : Command) (info : Info Obj)
    (K N : String) (m : MetaObj)
    (h0 : (o.builder (buildQuery o)).err = none)
    (h1 : (o.builder (buildQuery o)).items = [(info, none)])
    (hK : api.Kind info.Object = .ok K) (hN : api.Name info.Object = .ok N)
    (hA : api.Accessor info.Object = .ok m)
    (hT : api.GetCreationTimestamp m ≠ api.zeroTime) :
    (RunHelloKubernetes api o cmd).1.cmd.out
      = cmd.out ++ ["Hello " ++ K ++ " " ++ N ++ " "
          ++ api.formatV (api.GetCreationTimestamp m) ++ "\n"] ∧
    (RunHelloKubernetes api o cmd).2 = none := by
  obtain ⟨r1, _, r3⟩ := run_spec api o cmd h0
  have hg : greetItems api [(info, none)]
      = (["Hello " ++ K ++ " " ++ N ++ " "
          ++ api.formatV (api.GetCreationTimestamp m) ++ "\n"], []) := by
    simp [greetItems, greetingLine_ok api info K N m hK hN hA, helloLine, hT]
  rw [h1, hg] at r1 r3
  exact ⟨r1, by simpa [collectedError] using r3⟩

/-- C1 at a created pod "foo". -/
theorem C1_single_created_resource_witness :
    sampleAPI.GetCreationTimestamp podFoo.Object ≠ sampleAPI.zeroTime ∧
    (RunHelloKubernetes sampleAPI (sampleOptions ⟨none, [(podFoo, none)]⟩) ⟨[]⟩).1.cmd.out
      = ["Hello Pod foo 2019-06-01 12:00:00 +0000 UTC\n"] ∧
    (RunHelloKubernetes sampleAPI (sampleOptions ⟨none, [(podFoo, none)]⟩) ⟨[]⟩).2 = none :=
  ⟨by decide,
   C1_single_created_resource sampleAPI (sampleOptions ⟨none, [(podFoo, none)]⟩) ⟨[]⟩ podFoo
     "Pod" "foo" podFoo.Object rfl rfl rfl rfl rfl (by decide)⟩

/-- C2: for an error-free resource whose kind accessor gives K, name accessor
gives N and whose creation timestamp equals the zero value, the visitor
function writes exactly "Hello K N" with a newline (no timestamp, no trailing
space) and counts it; and in every run that reaches the resource, that line
follows the lines of the resources before it. -/
theorem C2_zero_timestamp_line (api : MetaAPI Obj MetaObj Time) (info : Info Obj)
    (K N : String) (m : MetaObj)
    (hK : api.Kind info.Object = .ok K) (hN : api.Name info.Object = .ok N)
    (hA : api.Accessor info.Object = .ok m)
    (hT : api.GetCreationTimestamp m = api.zeroTime) :
    (∀ fr : Frame Obj, greet api info none fr =
      ({ fr with cmd := ⟨fr.cmd.out ++ ["Hello " ++ K ++ " " ++ N ++ "\n"]⟩,
                 counter := fr.counter + 1 }, none)) ∧
    (∀ (o : HelloKubernetesOptions Obj Rec) (cmd : Command)
       (pre post : List (Info Obj × Option Error)) (ls : List String),
       (o.builder (buildQuery o)).err = none →
       (o.builder (buildQuery o)).items = pre ++ (info, none) :: post →
       List.Forall₂ (fun p l => p.2 = none ∧ greetingLine api p.1 = .ok l) pre ls →
       ∃ rest : List String, (RunHelloKubernetes api o cmd).1.cmd.out
         = cmd.out ++ ls ++ ["Hello " ++ K ++ " " ++ N ++ "\n"] ++ rest) := by
  have hl : greetingLine api info = .ok ("Hello " ++ K ++ " " ++ N ++ "\n") := by
    rw [greetingLine_ok api info K N m hK hN hA]
    simp [helloLine, hT]
  constructor
  · intro fr
    rw [greet_none, hl]
    rfl
  · intro o cmd pre post ls h0 h1 hpre
    obtain ⟨r1, _, _⟩ := run_spec api o cmd h0
    refine ⟨(greetItems api post).1, ?_⟩
    rw [r1, h1, greetItems_append api pre _ ls hpre]
    simp [greetItems, hl]

/-- C2 at a service definition "bar" that was never created. -/
theorem C2_zero_timestamp_line_witness :
    sampleAPI.GetCreationTimestamp svcBar.Object = sampleAPI.zeroTime ∧
    greet sampleAPI svcBar none ⟨⟨[]⟩, [], 0, 1⟩
      = (⟨⟨["Hello Service bar\n"]⟩, [], 1, 1⟩, none) :=
  ⟨rfl, (@C2_zero_timestamp_line SampleObj SampleObj Nat Unit _ sampleAPI svcBar
      "Service" "bar" svcBar.Object rfl rfl rfl rfl).1 ⟨⟨[]⟩, [], 0, 1⟩⟩

/-- C3: with no construction error, (a) an empty resolved sequence makes
`RunHelloKubernetes` write nothing and fail with the error whose message is
"no objects passed to kubernetes-hello"; (b) whenever the output pass returns
no error, the run fails with that error exactly when the count of printed
items is zero, the count being the number of lines written, and otherwise
returns no error. -/
theorem C3_no_objects (api : MetaAPI Obj MetaObj Time) (o : HelloKubernetesOptions Obj Rec)
    (cmd : Command) (h0 : (o.builder (buildQuery o)).err = none) :
    ((o.builder (buildQuery o)).items = [] →
      (RunHelloKubernetes api o cmd).1.cmd = cmd ∧
      (RunHelloKubernetes api o cmd).2 = some noObjects) ∧
    noObjects.msg = "no objects passed to kubernetes-hello" ∧
    ((secondPass api (o.builder (buildQuery o)) cmd).2 = none →
      ((RunHelloKubernetes api o cmd).2 = some noObjects ↔
        (secondPass api (o.builder (buildQuery o)) cmd).1.counter = 0) ∧
      ((secondPass api (o.builder (buildQuery o)) cmd).1.counter ≠ 0 →
        (RunHelloKubernetes api o cmd).2 = none) ∧
      (RunHelloKubernetes api o cmd).1.cmd.out.length
        = cmd.out.length + (secondPass api (o.builder (buildQuery o)) cmd).1.counter) := by
  obtain ⟨r1, _, r3⟩ := run_spec api o cmd h0
  obtain ⟨_, s2, s3⟩ := secondPass_spec api (o.builder (buildQuery o)) cmd
  refine ⟨?_, rfl, ?_⟩
  · intro hnil
    rw [hnil] at r1 r3
    refine ⟨?_, by simpa [greetItems, collectedError] using r3⟩
    have : (RunHelloKubernetes api o cmd).1.cmd.out = cmd.out := by
      simpa [greetItems] using r1
    cases hc : (RunHelloKubernetes api o cmd).1.cmd
    cases cmd
    simp_all
  · intro hs
    rw [s3] at hs
    rw [hs] at r3
    rw [s2]
    refine ⟨?_, ?_, ?_⟩
    · by_cases hz : (greetItems api (o.builder (buildQuery o)).items).1.length = 0
      · simp [r3, hz]
      · simp [r3, hz]
    · intro hz
      simp [r3, hz]
    · rw [r1, List.length_append]

/-- C3 at an empty resolved sequence. -/
theorem C3_no_objects_witness :
    ((sampleOptions ⟨none, []⟩).builder (buildQuery (sampleOptions ⟨none, []⟩))).err = none ∧
    (RunHelloKubernetes sampleAPI (sampleOptions ⟨none, []⟩) ⟨["earlier\n"]⟩).1.cmd
      = ⟨["earlier\n"]⟩ ∧
    (RunHelloKubernetes sampleAPI (sampleOptions ⟨none, []⟩) ⟨["earlier\n"]⟩).2
      = some ⟨"no objects passed to kubernetes-hello"⟩ :=
  ⟨rfl, (C3_no_objects sampleAPI (sampleOptions ⟨none, []⟩) ⟨["earlier\n"]⟩ rfl).1 rfl⟩

/-- C7: when the built query reports a construction error, `RunHelloKubernetes`
returns exactly that error at once: no `r.Visit` is started, nothing is
written, no variable is updated, and the no-objects error is not what is
reported. -/
theorem C7_construction_error (api : MetaAPI Obj MetaObj Time)
    (o : HelloKubernetesOptions Obj Rec) (cmd : Command) (e : Error)
    (h : (o.builder (buildQuery o)).err = some e) :
    RunHelloKubernetes api o cmd
      = ({ cmd := cmd, infos := [], counter := 0, visits := 0 }, some e) ∧
    (RunHelloKubernetes api o cmd).1.visits = 0 ∧
    (RunHelloKubernetes api o cmd).1.cmd.out = cmd.out ∧
    (RunHelloKubernetes api o cmd).2 = some e := by
  have hrun : RunHelloKubernetes api o cmd
      = ({ cmd := cmd, infos := [], counter := 0, visits := 0 }, some e) := by
    unfold RunHelloKubernetes
    simp only [h]
  rw [hrun]
  exact ⟨rfl, rfl, rfl, rfl⟩

/-- C7 at a malformed selector, with resources that would otherwise resolve. -/
theorem C7_construction_error_witness :
    ((sampleOptions ⟨some ⟨"bad selector"⟩, [(podFoo, none)]⟩).builder
      (buildQuery (sampleOptions ⟨some ⟨"bad selector"⟩, [(podFoo, none)]⟩))).err
      = some ⟨"bad selector"⟩ ∧
    RunHelloKubernetes sampleAPI (sampleOptions ⟨some ⟨"bad selector"⟩, [(podFoo, none)]⟩) ⟨[]⟩
      = (⟨⟨[]⟩, [], 0, 0⟩, some ⟨"bad selector"⟩) :=
  ⟨rfl, (C7_construction_error sampleAPI
      (sampleOptions ⟨some ⟨"bad selector"⟩, [(podFoo, none)]⟩) ⟨[]⟩ ⟨"bad selector"⟩ rfl).1⟩

end hellokubernetes

namespace hellokubernetes

variable {Obj MetaObj Time Rec : Type} [DecidableEq Time]

/-- C6: when the query has no construction error and resolves to n >= 1
error-free resources whose kind, name and metadata accessors all succeed,
`RunHelloKubernetes` writes exactly n lines, the i-th being the greeting of
the i-th resource in resolution order, and returns no error. -/
theorem C6_one_line_per_resource (api : MetaAPI Obj MetaObj Time)
    (o : HelloKubernetesOptions Obj Rec) (cmd : Command)
    (h0 : (o.builder (buildQuery o)).err = none)
    (hne : (o.builder (buildQuery o)).items ≠ [])
    (hall : ∀ p ∈ (o.builder (buildQuery o)).items,
      p.2 = none ∧ (∃ K, api.Kind p.1.Object = .ok K) ∧
      (∃ N, api.Name p.1.Object = .ok N) ∧ (∃ m, api.Accessor p.1.Object = .ok m)) :
    ∃ ls : List String,
      (RunHelloKubernetes api o cmd).1.cmd.out = cmd.out ++ ls ∧
      ls.length = (o.builder (buildQuery o)).items.length ∧
      List.Forall₂ (fun p l => greetingLine api p.1 = .ok l)
        (o.builder (buildQuery o)).items ls ∧
      (RunHelloKubernetes api o cmd).2 = none := by
  obtain ⟨r1, _, r3⟩ := run_spec api o cmd h0
  obtain ⟨g1, g2⟩ := greetItems_all_ok api (o.builder (buildQuery o)).items
    (fun p hp => ⟨(hall p hp).1,
      greetingLine_of_accessors api p.1 (hall p hp).2.1 (hall p hp).2.2.1 (hall p hp).2.2.2⟩)
  have hlen := g2.length_eq
  refine ⟨_, r1, hlen.symm, g2.imp (fun _ _ h => h.2), ?_⟩
  rw [g1] at r3
  have hpos : (greetItems api (o.builder (buildQuery o)).items).1.length ≠ 0 := by
    rw [← hlen]
    exact fun h => hne (List.length_eq_zero.mp h)
  simpa [hpos, collectedError] using r3

/-- C6 at a created pod followed by a service definition. -/
theorem C6_one_line_per_resource_witness :
    (∀ p ∈ [(podFoo, (none : Option Error)), (svcBar, none)],
      p.2 = none ∧ (∃ K, sampleAPI.Kind p.1.Object = .ok K) ∧
      (∃ N, sampleAPI.Name p.1.Object = .ok N) ∧
      (∃ m, sampleAPI.Accessor p.1.Object = .ok m)) ∧
    ∃ ls : List String,
      (RunHelloKubernetes sampleAPI (sampleOptions ⟨none, [(podFoo, none), (svcBar, none)]⟩)
        ⟨[]⟩).1.cmd.out = [] ++ ls ∧
      ls.length = 2 ∧
      List.Forall₂ (fun p l => greetingLine sampleAPI p.1 = .ok l)
        [(podFoo, (none : Option Error)), (svcBar, none)] ls ∧
      (RunHelloKubernetes sampleAPI (sampleOptions ⟨none, [(podFoo, none), (svcBar, none)]⟩)
        ⟨[]⟩).2 = none :=
  have hall : ∀ p ∈ [(podFoo, (none : Option Error)), (svcBar, none)],
      p.2 = none ∧ (∃ K, sampleAPI.Kind p.1.Object = .ok K) ∧
      (∃ N, sampleAPI.Name p.1.Object = .ok N) ∧
      (∃ m, sampleAPI.Accessor p.1.Object = .ok m) := by
    intro p hp
    simp only [List.mem_cons, List.mem_singleton, List.not_mem_nil, or_false] at hp
    rcases hp with rfl | rfl
    · exact ⟨rfl, ⟨"Pod", rfl⟩, ⟨"foo", rfl⟩, ⟨podFoo.Object, rfl⟩⟩
    · exact ⟨rfl, ⟨"Service", rfl⟩, ⟨"bar", rfl⟩, ⟨svcBar.Object, rfl⟩⟩
  ⟨hall, C6_one_line_per_resource sampleAPI
    (sampleOptions ⟨none, [(podFoo, none), (svcBar, none)]⟩) ⟨[]⟩ rfl (by simp [sampleOptions])
    hall⟩

/-- C10: the two-pass `RunHelloKubernetes` and the single-pass variant write
the same output, count the same and return the same result, whatever the
first pass collected or returned; the first pass leaves the output and the
count untouched; and the output pass gives the same output, count and error
from whatever collected list and visit count it starts with. -/
theorem C10_first_pass_redundant (api : MetaAPI Obj MetaObj Time)
    (o : HelloKubernetesOptions Obj Rec) (cmd : Command) :
    (RunHelloKubernetes api o cmd).1.cmd = (RunHelloKubernetesSinglePass api o cmd).1.cmd ∧
    (RunHelloKubernetes api o cmd).1.counter
      = (RunHelloKubernetesSinglePass api o cmd).1.counter ∧
    (RunHelloKubernetes api o cmd).2 = (RunHelloKubernetesSinglePass api o cmd).2 ∧
    ((firstPass api.NewAggregate (o.builder (buildQuery o)) cmd).1.cmd = cmd ∧
      (firstPass api.NewAggregate (o.builder (buildQuery o)) cmd).1.counter = 0) ∧
    ∀ (infos0 : List (Info Obj)) (visits0 : Nat),
      ((o.builder (buildQuery o)).Visit api.NewAggregate (greet api)
          ⟨cmd, infos0, 0, visits0⟩).1.cmd
        = (secondPass api (o.builder (buildQuery o)) cmd).1.cmd ∧
      ((o.builder (buildQuery o)).Visit api.NewAggregate (greet api)
          ⟨cmd, infos0, 0, visits0⟩).1.counter
        = (secondPass api (o.builder (buildQuery o)) cmd).1.counter ∧
      ((o.builder (buildQuery o)).Visit api.NewAggregate (greet api)
          ⟨cmd, infos0, 0, visits0⟩).2
        = (secondPass api (o.builder (buildQuery o)) cmd).2 := by
  have hcmd : ∀ a b : Command, a.out = b.out → a = b := by
    intro a b h
    cases a
    cases b
    simp_all
  refine ⟨?_, ?_, ?_, ?_, ?_⟩
  · cases h0 : (o.builder (buildQuery o)).err with
    | some e => simp [RunHelloKubernetes, RunHelloKubernetesSinglePass, h0]
    | none =>
      apply hcmd
      rw [(run_spec api o cmd h0).1, (singlePass_spec api o cmd h0).1]
  · cases h0 : (o.builder (buildQuery o)).err with
    | some e => simp [RunHelloKubernetes, RunHelloKubernetesSinglePass, h0]
    | none => rw [(run_spec api o cmd h0).2.1, (singlePass_spec api o cmd h0).2.1]
  · cases h0 : (o.builder (buildQuery o)).err with
    | some e => simp [RunHelloKubernetes, RunHelloKubernetesSinglePass, h0]
    | none => rw [(run_spec api o cmd h0).2.2, (singlePass_spec api o cmd h0).2.2]
  · exact firstPass_spec api.NewAggregate (o.builder (buildQuery o)) cmd
  · intro infos0 visits0
    obtain ⟨s1, s2, s3⟩ := secondPass_spec api (o.builder (buildQuery o)) cmd
    unfold Result.Visit
    simp only [visitItems_greet]
    refine ⟨hcmd _ _ ?_, ?_, ?_⟩
    · rw [s1]
    · rw [s2]
      simp
    · rw [s3]
      simp

/-- C9: `Complete` returns an error exactly when recorder construction,
printer construction or namespace resolution fails; the error is that of the
first failing step in that order and no later collaborator is called; when
all three succeed it returns no error, having called all collaborators, with
the positional arguments, the resolved namespace and the enforce-namespace
flag (and the recorder, the printer function and the builder) stored. -/
theorem C9_complete (f : Factory Obj Rec) (o : HelloKubernetesOptions Obj Rec)
    (args : List String) :
    ((Complete f o args).2.2 ≠ none ↔
      (f.ToRecorder.2 ≠ none ∨ (∃ e, f.ToPrinter = .error e) ∨ f.Namespace.2.2 ≠ none)) ∧
    (∀ e, f.ToRecorder.2 = some e →
      (Complete f o args).2.2 = some e ∧
      (Complete f o args).2.1 = [Call.RecordFlagsComplete, Call.ToRecorder]) ∧
    (∀ e, f.ToRecorder.2 = none → f.ToPrinter = .error e →
      (Complete f o args).2.2 = some e ∧
      (Complete f o args).2.1 = [Call.RecordFlagsComplete, Call.ToRecorder, Call.ToPrinter]) ∧
    (∀ e printer, f.ToRecorder.2 = none → f.ToPrinter = .ok printer →
      f.Namespace.2.2 = some e →
      (Complete f o args).2.2 = some e ∧
      (Complete f o args).2.1
        = [Call.RecordFlagsComplete, Call.ToRecorder, Call.ToPrinter, Call.Namespace]) ∧
    (∀ printer, f.ToRecorder.2 = none → f.ToPrinter = .ok printer →
      f.Namespace.2.2 = none →
      (Complete f o args).2.2 = none ∧
      (Complete f o args).2.1 = [Call.RecordFlagsComplete, Call.ToRecorder, Call.ToPrinter,
        Call.Namespace, Call.NewBuilder] ∧
      (Complete f o args).1.args = args ∧
      (Complete f o args).1.namespace_ = f.Namespace.1 ∧
      (Complete f o args).1.enforceNamespace = f.Namespace.2.1 ∧
      (Complete f o args).1.Recorder = f.ToRecorder.1 ∧
      (Complete f o args).1.PrintObj = some printer ∧
      (Complete f o args).1.builder = f.NewBuilder) := by
  refine ⟨?_, ?_, ?_, ?_, ?_⟩
  · unfold Complete
    cases h1 : f.ToRecorder.2 with
    | some e => simp
    | none =>
      cases h2 : f.ToPrinter with
      | error e => simp
      | ok printer =>
        cases h3 : f.Namespace.2.2 with
        | some e => simp
        | none => simp
  · intro e h1
    simp [Complete, h1]
  · intro e h1 h2
    simp [Complete, h1, h2]
  · intro e printer h1 h2 h3
    simp [Complete, h1, h2, h3]
  · intro printer h1 h2 h3
    simp [Complete, h1, h2, h3]

/-- C9 at a factory whose printer construction fails and whose namespace
resolution would fail too. -/
theorem C9_complete_witness :
    (Complete (sampleFactory ⟨none, []⟩ none (some ⟨"bad output format"⟩)
        (some ⟨"no kubeconfig"⟩)) (sampleOptions ⟨none, []⟩) ["pod"]).2.2
      = some ⟨"bad output format"⟩ ∧
    (Complete (sampleFactory ⟨none, []⟩ none (some ⟨"bad output format"⟩)
        (some ⟨"no kubeconfig"⟩)) (sampleOptions ⟨none, []⟩) ["pod"]).2.1
      = [Call.RecordFlagsComplete, Call.ToRecorder, Call.ToPrinter] :=
  (C9_complete (sampleFactory ⟨none, []⟩ none (some ⟨"bad output format"⟩)
    (some ⟨"no kubeconfig"⟩)) (sampleOptions ⟨none, []⟩) ["pod"]).2.2.1
    ⟨"bad output format"⟩ rfl rfl

/-- C4 as stated fails: a created pod, then an item that carries the error
"boom", then a created pod. The run returns "boom" but is not aborted: it
writes a greeting for the pod after the item that carries the error too. -/
theorem C4_counterexample :
    ((sampleOptions ⟨none, [(podFoo, none), (svcBar, some ⟨"boom"⟩), (podFoo, none)]⟩).builder
      (buildQuery (sampleOptions
        ⟨none, [(podFoo, none), (svcBar, some ⟨"boom"⟩), (podFoo, none)]⟩))).err = none ∧
    ((sampleOptions ⟨none, [(podFoo, none), (svcBar, some ⟨"boom"⟩), (podFoo, none)]⟩).builder
      (buildQuery (sampleOptions
        ⟨none, [(podFoo, none), (svcBar, some ⟨"boom"⟩), (podFoo, none)]⟩))).items
      = [(podFoo, none)] ++ (svcBar, some ⟨"boom"⟩) :: [(podFoo, none)] ∧
    (RunHelloKubernetes sampleAPI
      (sampleOptions ⟨none, [(podFoo, none), (svcBar, some ⟨"boom"⟩), (podFoo, none)]⟩)
      ⟨[]⟩).2 = some ⟨"boom"⟩ ∧
    (RunHelloKubernetes sampleAPI
      (sampleOptions ⟨none, [(podFoo, none), (svcBar, some ⟨"boom"⟩), (podFoo, none)]⟩)
      ⟨[]⟩).1.cmd.out
      = ["Hello Pod foo 2019-06-01 12:00:00 +0000 UTC\n",
         "Hello Pod foo 2019-06-01 12:00:00 +0000 UTC\n"] ∧
    (RunHelloKubernetes sampleAPI
      (sampleOptions ⟨none, [(podFoo, none), (svcBar, some ⟨"boom"⟩), (podFoo, none)]⟩)
      ⟨[]⟩).1.cmd.out
      ≠ ["Hello Pod foo 2019-06-01 12:00:00 +0000 UTC\n"] := by
  refine ⟨rfl, rfl, ?_, ?_, ?_⟩ <;> decide

/-- C4, amended: when the query has no construction error and some item of
the resolved sequence carries an error, `RunHelloKubernetes` returns an
error but does not abort the run (skip and continue): it writes no line for
that item, and writes the greeting of every error-free item whose accessors
succeed, those after that item as well as those before it. The error
returned is made of all the errors collected, in order: the errors items
carry and the errors of failing accessors. When every other item is
error-free with succeeding accessors, the error returned is exactly the
error that item carries. -/
theorem C4_continue_on_error (api : MetaAPI Obj MetaObj Time)
    (o : HelloKubernetesOptions Obj Rec) (cmd : Command)
    (pre post : List (Info Obj × Option Error)) (info : Info Obj) (e : Error)
    (h0 : (o.builder (buildQuery o)).err = none)
    (h1 : (o.builder (buildQuery o)).items = pre ++ (info, some e) :: post) :
    (∃ e1, (RunHelloKubernetes api o cmd).2 = some e1) ∧
    (RunHelloKubernetes api o cmd).2
      = collectedError api.NewAggregate
          (pre.filterMap (errorOf api) ++ e :: post.filterMap (errorOf api)) ∧
    (RunHelloKubernetes api o cmd).1.cmd.out
      = cmd.out ++ pre.filterMap (lineOf api) ++ post.filterMap (lineOf api) ∧
    ((∀ p ∈ pre ++ post, p.2 = none ∧ (∃ K, api.Kind p.1.Object = .ok K) ∧
        (∃ N, api.Name p.1.Object = .ok N) ∧ (∃ m, api.Accessor p.1.Object = .ok m)) →
      (RunHelloKubernetes api o cmd).2 = some e ∧
      ∃ ls1 ls2 : List String,
        (RunHelloKubernetes api o cmd).1.cmd.out = cmd.out ++ ls1 ++ ls2 ∧
        List.Forall₂ (fun p l => greetingLine api p.1 = .ok l) pre ls1 ∧
        List.Forall₂ (fun p l => greetingLine api p.1 = .ok l) post ls2) := by
  obtain ⟨r1, _, r3⟩ := run_spec api o cmd h0
  have hitems : greetItems api (pre ++ (info, some e) :: post)
      = (pre.filterMap (lineOf api) ++ post.filterMap (lineOf api),
         pre.filterMap (errorOf api) ++ e :: post.filterMap (errorOf api)) := by
    rw [greetItems_eq]
    simp [List.filterMap_append, List.filterMap_cons, lineOf, errorOf]
  rw [h1, hitems] at r1 r3
  have hsome : ∀ es1 es2 : List Error,
      ∃ e1, collectedError api.NewAggregate (es1 ++ e :: es2) = some e1 := by
    intro es1 es2
    cases es1 with
    | nil =>
      cases es2 with
      | nil => exact ⟨e, rfl⟩
      | cons b bs => exact ⟨_, rfl⟩
    | cons a as =>
      cases as with
      | nil => exact ⟨_, rfl⟩
      | cons b bs => exact ⟨_, rfl⟩
  obtain ⟨e1, he1⟩ := hsome (pre.filterMap (errorOf api)) (post.filterMap (errorOf api))
  rw [he1] at r3
  have r3a : (RunHelloKubernetes api o cmd).2 = some e1 := r3
  refine ⟨⟨e1, r3a⟩, by rw [r3a, he1], by rw [r1, List.append_assoc], ?_⟩
  intro hall
  have hpre := greetItems_all_ok api pre (fun p hp =>
    ⟨(hall p (List.mem_append_left _ hp)).1,
      greetingLine_of_accessors api p.1 (hall p (List.mem_append_left _ hp)).2.1
        (hall p (List.mem_append_left _ hp)).2.2.1 (hall p (List.mem_append_left _ hp)).2.2.2⟩)
  have hpost := greetItems_all_ok api post (fun p hp =>
    ⟨(hall p (List.mem_append_right _ hp)).1,
      greetingLine_of_accessors api p.1 (hall p (List.mem_append_right _ hp)).2.1
        (hall p (List.mem_append_right _ hp)).2.2.1
        (hall p (List.mem_append_right _ hp)).2.2.2⟩)
  rw [greetItems_eq] at hpre hpost
  obtain ⟨p1, p2⟩ := hpre
  obtain ⟨q1, q2⟩ := hpost
  replace p1 : pre.filterMap (errorOf api) = [] := p1
  replace q1 : post.filterMap (errorOf api) = [] := q1
  rw [p1, q1] at he1
  refine ⟨?_, pre.filterMap (lineOf api), post.filterMap (lineOf api), ?_,
    p2.imp (fun _ _ h => h.2), q2.imp (fun _ _ h => h.2)⟩
  · rw [r3a, ← he1]
    rfl
  · rw [r1, List.append_assoc]

/-- C4, amended, at a created pod, then an item carrying "boom", then a
service definition. -/
theorem C4_continue_on_error_witness :
    ((sampleOptions ⟨none, [(podFoo, none), (svcBar, some ⟨"boom"⟩), (svcBar, none)]⟩).builder
      (buildQuery (sampleOptions
        ⟨none, [(podFoo, none), (svcBar, some ⟨"boom"⟩), (svcBar, none)]⟩))).err = none ∧
    (RunHelloKubernetes sampleAPI
      (sampleOptions ⟨none, [(podFoo, none), (svcBar, some ⟨"boom"⟩), (svcBar, none)]⟩)
      ⟨[]⟩).1.cmd.out
      = [] ++ [(podFoo, (none : Option Error))].filterMap (lineOf sampleAPI)
          ++ [(svcBar, (none : Option Error))].filterMap (lineOf sampleAPI) ∧
    (RunHelloKubernetes sampleAPI
      (sampleOptions ⟨none, [(podFoo, none), (svcBar, some ⟨"boom"⟩), (svcBar, none)]⟩)
      ⟨[]⟩).2 = some ⟨"boom"⟩ :=
  ⟨rfl,
   (C4_continue_on_error sampleAPI
      (sampleOptions ⟨none, [(podFoo, none), (svcBar, some ⟨"boom"⟩), (svcBar, none)]⟩)
      ⟨[]⟩ [(podFoo, none)] [(svcBar, none)] svcBar ⟨"boom"⟩ rfl rfl).2.2.1,
   ((C4_continue_on_error sampleAPI
      (sampleOptions ⟨none, [(podFoo, none), (svcBar, some ⟨"boom"⟩), (svcBar, none)]⟩)
      ⟨[]⟩ [(podFoo, none)] [(svcBar, none)] svcBar ⟨"boom"⟩ rfl rfl).2.2.2
      (by
        intro p hp
        simp only [List.cons_append, List.nil_append, List.mem_cons, List.mem_singleton,
          List.not_mem_nil, or_false] at hp
        rcases hp with rfl | rfl
        · exact ⟨rfl, ⟨"Pod", rfl⟩, ⟨"foo", rfl⟩, ⟨podFoo.Object, rfl⟩⟩
        · exact ⟨rfl, ⟨"Service", rfl⟩, ⟨"bar", rfl⟩, ⟨svcBar.Object, rfl⟩⟩)).1⟩

/-- C5 as stated fails: after a `Complete` that stores the structured printer
`rawPrinter` in `PrintObj`, `RunHelloKubernetes` on one created pod still
writes the greeting line, not what the printer writes for the object. -/
theorem C5_counterexample :
    (Complete (sampleFactory ⟨none, [(podFoo, none)]⟩ none none none)
        (sampleOptions ⟨none, []⟩) []).2.2 = none ∧
    (Complete (sampleFactory ⟨none, [(podFoo, none)]⟩ none none none)
        (sampleOptions ⟨none, []⟩) []).1.PrintObj.map (fun p => (p podFoo.Object []).1)
      = some ["kind: Pod, name: foo\n"] ∧
    (RunHelloKubernetes sampleAPI
        (Complete (sampleFactory ⟨none, [(podFoo, none)]⟩ none none none)
          (sampleOptions ⟨none, []⟩) []).1 ⟨[]⟩).1.cmd.out
      = ["Hello Pod foo 2019-06-01 12:00:00 +0000 UTC\n"] ∧
    (RunHelloKubernetes sampleAPI
        (Complete (sampleFactory ⟨none, [(podFoo, none)]⟩ none none none)
          (sampleOptions ⟨none, []⟩) []).1 ⟨[]⟩).1.cmd.out
      ≠ ["kind: Pod, name: foo\n"] := by
  refine ⟨rfl, ?_, ?_, ?_⟩ <;> decide

/-- C5, amended: `RunHelloKubernetes` never calls `PrintObj`; its final frame
(the output included) and its result are the same whatever printer function
the options hold, and `buildQuery` does not read it either. -/
theorem C5_printer_unused (api : MetaAPI Obj MetaObj Time)
    (o : HelloKubernetesOptions Obj Rec) (cmd : Command)
    (printObj : Option (ResourcePrinterFunc Obj)) :
    RunHelloKubernetes api { o with PrintObj := printObj } cmd = RunHelloKubernetes api o cmd ∧
    buildQuery { o with PrintObj := printObj } = buildQuery o := by
  exact ⟨rfl, rfl⟩

end hellokubernetes
